import Mathlib

/-!
Shallow embedding of `talk_base::SystemInfo` (src/base/systeminfo.cc).

The class probes platform-specific sources for hardware facts and caches
the results in member fields.  We model the member fields as an explicit
state record, the platform (`WIN32` / `OSX` / `IOS` / `LINUX`-`ANDROID`
preprocessor branches) as an inductive, the instruction-set-family macros
(`CPU_X86` / `CPU_ARM`) as a tag, and every external source (sysctl keys,
registry values, `GetLogicalProcessorInformation`, `/proc/cpuinfo`,
the `cpuid` instruction, D3D9 adapter identification) as fields of an
environment record, each an `Option` when the source can fail.
Accessors become functions `Env → State → value × State`.
-/

/-- The preprocessor platform branch selected at build time. -/
inductive Platform
  | win32
  | osx
  | ios
  | linux
deriving DecidableEq

/-- `SystemInfo::Architecture` enum values. -/
inductive Architecture
  | SI_ARCH_ARM
  | SI_ARCH_X86
  | SI_ARCH_X64
deriving DecidableEq

/-- Instruction-set-family macro: `CPU_X86`, `CPU_ARM`, or neither. -/
inductive CpuTag
  | x86
  | arm
  | other
deriving DecidableEq

/-- The family macro implied by the architecture chosen in the constructor
(`CPU_ARM` selects `SI_ARCH_ARM`; the x86/x64 predefines imply `CPU_X86`). -/
def tagOf : Architecture → CpuTag
  | .SI_ARCH_ARM => .arm
  | .SI_ARCH_X86 => .x86
  | .SI_ARCH_X64 => .x86

/-- Reinterpretation of a machine word as a 32-bit signed `int`
(C++ narrowing/reinterpreting cast). -/
def toSigned32 (n : Nat) : Int :=
  if n % 4294967296 < 2147483648 then ((n % 4294967296 : Nat) : Int)
  else ((n % 4294967296 : Nat) : Int) - 4294967296

/-- Reinterpretation of a machine word as a 64-bit signed `int64`. -/
def toSigned64 (n : Nat) : Int :=
  if n % 18446744073709551616 < 9223372036854775808 then
    ((n % 18446744073709551616 : Nat) : Int)
  else ((n % 18446744073709551616 : Nat) : Int) - 18446744073709551616

/-- Arithmetic shift right by 16 of a signed 32-bit value, the behaviour of
`cpu_info[2] >> 16` on a negative `int` (sign-propagating, i.e. floor
division by 2^16). -/
def asr16 (x : Int) : Int :=
  Int.fdiv x 65536

/-- The four registers returned by one `__cpuid(cpu_info, leaf)` query,
in array order `[eax, ebx, ecx, edx]`. -/
structure CpuIdRegs where
  r0 : Nat
  r1 : Nat
  r2 : Nat
  r3 : Nat

/-- One `SYSTEM_LOGICAL_PROCESSOR_INFORMATION` entry as consumed by
`GetProcessorInformation`: only the relationship kind and, for caches,
the cache size are read. -/
inductive GlpiEntry
  | core
  | cacheOf (size : Nat)
  | unrelated

/-- Modelled from the spec: `ProcCpuInfo` (talk/base/linux.h, not in src/) —
"a text-based kernel information source with a section/key parser"; each
getter is "a fallible synchronous function returning either a value or
unavailable", writing its out-parameter only on success. -/
structure ProcCpuInfoData where
  numCpus : Option Int
  numPhysicalCpus : Option Int
  cpuFamily : Option Int
  modelValue : Option Int
  stepping : Option Int
  cpuMHz : Option Int
  cacheSizeKB : Option Int

/-- The D3D9 adapter identification data read on the Windows branch of
`GetGpuInfo`; `none` stands for any failure in the LoadLibrary /
Direct3DCreate9 / GetAdapterIdentifier chain. -/
structure WinGpuAdapter where
  deviceName : String
  description : String
  vendorId : Nat
  deviceId : Nat
  driver : String
  driverVersionHigh : Nat
  driverVersionLow : Nat

/-- All external sources consulted by `SystemInfo`, one field each; an
`Option` field is `none` when the source fails or is unavailable. -/
structure Env where
  winNumberOfProcessors : Nat
  winProcessorLevel : Nat
  winProcessorRevision : Nat
  winGlpi : Option (List GlpiEntry)
  winRegMhz : Option Nat
  winMemoryStatus : Option Nat
  winGpu : Option WinGpuAdapter
  hwPhysicalCpuMax : Option Nat
  hwLogicalCpuMax : Option Nat
  hwL3CacheSize : Option Nat
  hwL2CacheSize : Option Nat
  machdepCpuFamily : Option Nat
  machdepCpuModel : Option Nat
  machdepCpuStepping : Option Nat
  hwCpuFrequencyMax : Option Nat
  hwMemSize : Option Nat
  hwModel : Option String
  osxGpuVendorId : Option Int
  osxGpuDeviceId : Option Int
  osxGpuModel : Option String
  procCpuInfo : Option ProcCpuInfoData
  readCpuMaxFreq : Int
  sysconfPhysPages : Int
  sysconfPageSize : Int
  cpuid : Nat → CpuIdRegs

/-- An environment in which every fallible source fails, every scalar
source reports 0, and every cpuid query returns four zero registers;
concrete environments below override individual fields. -/
def baseEnv : Env :=
  { winNumberOfProcessors := 0, winProcessorLevel := 0, winProcessorRevision := 0,
    winGlpi := none, winRegMhz := none, winMemoryStatus := none, winGpu := none,
    hwPhysicalCpuMax := none, hwLogicalCpuMax := none,
    hwL3CacheSize := none, hwL2CacheSize := none,
    machdepCpuFamily := none, machdepCpuModel := none, machdepCpuStepping := none,
    hwCpuFrequencyMax := none, hwMemSize := none, hwModel := none,
    osxGpuVendorId := none, osxGpuDeviceId := none, osxGpuModel := none,
    procCpuInfo := none, readCpuMaxFreq := -1,
    sysconfPhysPages := 0, sysconfPageSize := 0,
    cpuid := fun _ => ⟨0, 0, 0, 0⟩ }

/-- The member fields of a `SystemInfo` instance. -/
structure SystemInfoState where
  physical_cpus : Int
  logical_cpus : Int
  cache_size : Int
  cpu_arch : Architecture
  cpu_vendor : String
  cpu_family : Int
  cpu_model : Int
  cpu_stepping : Int
  cpu_speed : Int
  memory : Int
  machine_model : String
deriving DecidableEq

/-- `SystemInfo::GpuInfo` output record. -/
structure GpuInfo where
  device_name : String
  description : String
  vendor_id : Int
  device_id : Int
  driver : String
  driver_version : String
deriving DecidableEq

/-- The accumulation loop of `GetProcessorInformation`: counts
`RelationProcessorCore` entries and keeps the maximum (last maximal)
`RelationCache` size, starting from `physical_cpus = 0, cache_size = 0`. -/
def winGlpiFold (entries : List GlpiEntry) : Int × Int :=
  entries.foldl (fun pc e =>
    match e with
    | .core => (pc.1 + 1, pc.2)
    | .cacheOf sz => if pc.2 ≤ toSigned32 sz then (pc.1, toSigned32 sz) else pc
    | .unrelated => pc) (0, 0)

/-- `GetProcessorInformation(physical_cpus, cache_size)`: leaves both
out-parameters untouched when the enumeration is unavailable or fails,
otherwise overwrites them with the fold over the returned entries. -/
def GetProcessorInformation (glpi : Option (List GlpiEntry))
    (physical_cpus cache_size : Int) : Int × Int :=
  match glpi with
  | none => (physical_cpus, cache_size)
  | some entries => winGlpiFold entries

/-- Apple-branch helper: a `sysctlbyname` integer read, cast to `int`,
keeping the previous field value on failure. -/
def appleU32Field (src : Option Nat) (old : Int) : Int :=
  match src with
  | some v => toSigned32 v
  | none => old

/-- The `LINUX || ANDROID` constructor stage using `ProcCpuInfo`, entered
only when `LoadFromSystem()` succeeded; the model/stepping/speed/cache
reads (and the KB→bytes scaling) are compiled out under `CPU_ARM`. -/
def linuxProcStage (tag : CpuTag) (pi : ProcCpuInfoData)
    (s : SystemInfoState) : SystemInfoState :=
  let logical := pi.numCpus.getD s.logical_cpus
  let phys := pi.numPhysicalCpus.getD s.physical_cpus
  let family := pi.cpuFamily.getD s.cpu_family
  if tag = .arm then
    { s with logical_cpus := logical, physical_cpus := phys, cpu_family := family }
  else
    { s with
      logical_cpus := logical, physical_cpus := phys, cpu_family := family,
      cpu_model := pi.modelValue.getD s.cpu_model,
      cpu_stepping := pi.stepping.getD s.cpu_stepping,
      cpu_speed := pi.cpuMHz.getD s.cpu_speed,
      cache_size := (pi.cacheSizeKB.getD s.cache_size) * 1024 }

/-- The platform-specific part of the constructor body (lines 137–209). -/
def platformInit (p : Platform) (tag : CpuTag) (env : Env)
    (s : SystemInfoState) : SystemInfoState :=
  match p with
  | .win32 =>
    let logical := toSigned32 env.winNumberOfProcessors
    let pc := GetProcessorInformation env.winGlpi s.physical_cpus s.cache_size
    let phys := if pc.1 ≤ 0 then logical else pc.1
    { s with
      logical_cpus := logical, physical_cpus := phys, cache_size := pc.2,
      cpu_family := ((env.winProcessorLevel % 65536 : Nat) : Int),
      cpu_model := ((env.winProcessorRevision % 65536 / 256 : Nat) : Int),
      cpu_stepping := ((env.winProcessorRevision % 256 : Nat) : Int) }
  | .osx | .ios =>
    let cache1 := appleU32Field env.hwL3CacheSize s.cache_size
    { s with
      physical_cpus := appleU32Field env.hwPhysicalCpuMax s.physical_cpus,
      logical_cpus := appleU32Field env.hwLogicalCpuMax s.logical_cpus,
      cache_size := if cache1 = 0 then appleU32Field env.hwL2CacheSize cache1 else cache1,
      cpu_family := appleU32Field env.machdepCpuFamily s.cpu_family,
      cpu_model := appleU32Field env.machdepCpuModel s.cpu_model,
      cpu_stepping := appleU32Field env.machdepCpuStepping s.cpu_stepping }
  | .linux =>
    let s1 :=
      match env.procCpuInfo with
      | some pi => linuxProcStage tag pi s
      | none => s
    if env.readCpuMaxFreq > 0 then { s1 with cpu_speed := env.readCpuMaxFreq / 1000 }
    else s1

/-- The `CPU_X86` cache-size fallback (lines 212–221): query the maximum
extended cpuid leaf; when it covers `0x80000006`, the L2 size is the third
register of that leaf shifted right 16 (an arithmetic shift of the signed
`int`) times 1024.  `none` when the leaf is not supported. -/
def cpuidCacheValue (env : Env) : Option Int :=
  let q := env.cpuid 0x80000000
  if q.r0 % 4294967296 ≥ 0x80000006 then
    let q2 := env.cpuid 0x80000006
    some (asr16 (toSigned32 q2.r2) * 1024)
  else none

/-- The final cache-size resolution: the cpuid fallback runs only under
`CPU_X86` and only when every earlier source left `cache_size_` at 0. -/
def resolveCacheSize (tag : CpuTag) (env : Env) (pre : Int) : Int :=
  if tag = .x86 ∧ pre = 0 then
    match cpuidCacheValue env with
    | some v => v
    | none => pre
  else pre

/-- The constructor's member-initializer list plus the architecture tag
(lines 122–135): counts default to 1, numeric facts to 0, strings are
default-constructed empty. -/
def initialState (arch : Architecture) : SystemInfoState :=
  { physical_cpus := 1, logical_cpus := 1, cache_size := 0, cpu_arch := arch,
    cpu_vendor := "", cpu_family := 0, cpu_model := 0, cpu_stepping := 0,
    cpu_speed := 0, memory := 0, machine_model := "" }

namespace SystemInfo

/-- `SystemInfo::SystemInfo()`: member initializers, then the platform
branch, then the `CPU_X86` cpuid cache fallback. -/
def construct (p : Platform) (arch : Architecture) (env : Env) : SystemInfoState :=
  let s1 := platformInit p (tagOf arch) env (initialState arch)
  { s1 with cache_size := resolveCacheSize (tagOf arch) env s1.cache_size }

/-- `GetMaxCpus()`: returns `logical_cpus_`. -/
def GetMaxCpus (s : SystemInfoState) : Int × SystemInfoState :=
  (s.logical_cpus, s)

/-- `GetMaxPhysicalCpus()`: returns `physical_cpus_`. -/
def GetMaxPhysicalCpus (s : SystemInfoState) : Int × SystemInfoState :=
  (s.physical_cpus, s)

/-- `GetCpuArchitecture()`: returns `cpu_arch_`. -/
def GetCpuArchitecture (s : SystemInfoState) : Architecture × SystemInfoState :=
  (s.cpu_arch, s)

/-- `GetCpuCacheSize()`: returns `cache_size_`. -/
def GetCpuCacheSize (s : SystemInfoState) : Int × SystemInfoState :=
  (s.cache_size, s)

/-- `GetCpuFamily()`: returns `cpu_family_`. -/
def GetCpuFamily (s : SystemInfoState) : Int × SystemInfoState :=
  (s.cpu_family, s)

/-- `GetCpuModel()`: returns `cpu_model_`. -/
def GetCpuModel (s : SystemInfoState) : Int × SystemInfoState :=
  (s.cpu_model, s)

/-- `GetCpuStepping()`: returns `cpu_stepping_`. -/
def GetCpuStepping (s : SystemInfoState) : Int × SystemInfoState :=
  (s.cpu_stepping, s)

/-- The value the uncached branch of `GetMaxCpuSpeed` stores in
`cpu_speed_`: registry `~Mhz` (or -1 on failure) on Windows,
`hw.cpufrequency_max / 1e6` cast to `int` (or -1) on Apple platforms,
and the literal 0 of the unimplemented Linux branch. -/
def resolveSpeed (p : Platform) (env : Env) : Int :=
  match p with
  | .win32 =>
    match env.winRegMhz with
    | some d => toSigned32 d
    | none => -1
  | .osx | .ios =>
    match env.hwCpuFrequencyMax with
    | some v => toSigned32 (v / 1000000)
    | none => -1
  | .linux => 0

/-- `GetMaxCpuSpeed()`: returns the cached `cpu_speed_` when non-zero,
otherwise resolves, stores and returns. -/
def GetMaxCpuSpeed (p : Platform) (env : Env) (s : SystemInfoState) :
    Int × SystemInfoState :=
  if s.cpu_speed ≠ 0 then (s.cpu_speed, s)
  else
    let v := resolveSpeed p env
    (v, { s with cpu_speed := v })

/-- The value the uncached branch of `GetMemorySize` stores in `memory_`:
`ullTotalPhys` (or -1) on Windows; `hw.memsize` with failure and exact-0
normalised to -1 on Apple platforms; `_SC_PHYS_PAGES * _SC_PAGESIZE` with
only negative products normalised to -1 on Linux. -/
def resolveMemory (p : Platform) (env : Env) : Int :=
  match p with
  | .win32 =>
    match env.winMemoryStatus with
    | some v => toSigned64 v
    | none => -1
  | .osx | .ios =>
    match env.hwMemSize with
    | some v => if toSigned64 v = 0 then -1 else toSigned64 v
    | none => -1
  | .linux =>
    let m := env.sysconfPhysPages * env.sysconfPageSize
    if m < 0 then -1 else m

/-- `GetMemorySize()`: returns the cached `memory_` when non-zero,
otherwise resolves, stores and returns. -/
def GetMemorySize (p : Platform) (env : Env) (s : SystemInfoState) :
    Int × SystemInfoState :=
  if s.memory ≠ 0 then (s.memory, s)
  else
    let v := resolveMemory p env
    (v, { s with memory := v })

/-- The value the uncached branch of `GetMachineModel` stores in
`machine_model_`: the `hw.model` string on Apple platforms (cleared to ""
on failure), the static "Not available" elsewhere. -/
def resolveMachineModel (p : Platform) (env : Env) : String :=
  match p with
  | .osx | .ios =>
    match env.hwModel with
    | some m => m
    | none => ""
  | _ => "Not available"

/-- `GetMachineModel()`: returns the cached `machine_model_` when
non-empty, otherwise resolves, stores and returns what was stored. -/
def GetMachineModel (p : Platform) (env : Env) (s : SystemInfoState) :
    String × SystemInfoState :=
  if s.machine_model ≠ "" then (s.machine_model, s)
  else
    let v := resolveMachineModel p env
    (v, { s with machine_model := v })

end SystemInfo

/-- The four bytes of a 32-bit register, least significant first
(little-endian in-memory order read by the `std::string` constructor). -/
def bytes4 (n : Nat) : List Nat :=
  let m := n % 4294967296
  [m % 256, m / 256 % 256, m / 65536 % 256, m / 16777216 % 256]

/-- The 12 vendor-tag bytes in the order the reordered array lays them
out in memory: `cpu_info[1]` (ebx), `cpu_info[3]` (edx), `cpu_info[2]`
(ecx). -/
def vendorBytes (env : Env) : List Nat :=
  let q := env.cpuid 0
  bytes4 q.r1 ++ bytes4 q.r3 ++ bytes4 q.r2

/-- `std::string(reinterpret_cast<char*>(&cpu_info[0]))`: the bytes up to
the first NUL (the zeroed `cpu_info[3]` guarantees one at offset 12). -/
def cpuVendorString (env : Env) : String :=
  String.mk (((vendorBytes env).takeWhile (fun b => b ≠ 0)).map Char.ofNat)

/-- The string the uncached branch of `GetCpuVendor` stores, by
instruction-set family. -/
def resolveVendor (tag : CpuTag) (env : Env) : String :=
  match tag with
  | .x86 => cpuVendorString env
  | .arm => "ARM"
  | .other => "Undefined"

namespace SystemInfo

/-- `GetCpuVendor()`: probes only while `cpu_vendor_` is empty, then
returns the field. -/
def GetCpuVendor (tag : CpuTag) (env : Env) (s : SystemInfoState) :
    String × SystemInfoState :=
  let s1 := if s.cpu_vendor = "" then { s with cpu_vendor := resolveVendor tag env } else s
  (s1.cpu_vendor, s1)

end SystemInfo

/-- Decimal digit characters of a natural number, most significant first
(the rendering `std::stringstream << unsigned` produces). -/
def natDecChars (n : Nat) : List Char :=
  if h : n < 10 then [Char.ofNat (48 + n)]
  else natDecChars (n / 10) ++ [Char.ofNat (48 + n % 10)]
termination_by n
decreasing_by
  simp_wf
  exact Nat.div_lt_self (by omega) (by omega)

/-- The character list of the Windows `driver_version` string: the four
16-bit words in the order HIWORD(HighPart), LOWORD(HighPart),
HIWORD(LowPart), LOWORD(LowPart), rendered in decimal and joined by
dots. -/
def winDriverVersionChars (hi lo : Nat) : List Char :=
  natDecChars (hi % 4294967296 / 65536) ++ '.' ::
  (natDecChars (hi % 65536) ++ '.' ::
  (natDecChars (lo % 4294967296 / 65536) ++ '.' ::
  natDecChars (lo % 65536)))

/-- Recogniser for the pattern `\d+\.\d+\.\d+\.\d+`: `dots` counts the
separators passed so far, `seen` whether the current field has at least
one digit. -/
def dottedQuadAux : List Char → Nat → Bool → Bool
  | [], dots, seen => dots == 3 && seen
  | c :: rest, dots, seen =>
    if c.isDigit then dottedQuadAux rest dots true
    else if c = '.' then seen && dottedQuadAux rest (dots + 1) false
    else false

/-- Whether a string matches `\d+\.\d+\.\d+\.\d+`. -/
def matchesDottedQuad (s : String) : Bool :=
  dottedQuadAux s.data 0 false

namespace SystemInfo

/-- `GetGpuInfo(GpuInfo* info)`: the out-pointer is `none` for null.
Returns the success flag, the pointed-to struct after the call, and the
(untouched) instance state.  Windows uses the D3D9 adapter identifier
and overwrites every field; the OSX branch best-effort-fills three
fields via IOKit and always reports success; other platforms report
failure without writing. -/
def GetGpuInfo (p : Platform) (env : Env) (s : SystemInfoState)
    (info : Option GpuInfo) : Bool × Option GpuInfo × SystemInfoState :=
  match info with
  | none => (false, none, s)
  | some i =>
    match p with
    | .win32 =>
      match env.winGpu with
      | none => (false, some i, s)
      | some a =>
        (true, some
          { device_name := a.deviceName, description := a.description,
            vendor_id := toSigned32 a.vendorId, device_id := toSigned32 a.deviceId,
            driver := a.driver,
            driver_version :=
              String.mk (winDriverVersionChars a.driverVersionHigh a.driverVersionLow) },
          s)
    | .osx =>
      (true, some
        { i with
          vendor_id := env.osxGpuVendorId.getD i.vendor_id,
          device_id := env.osxGpuDeviceId.getD i.device_id,
          description := env.osxGpuModel.getD i.description },
        s)
    | _ => (false, some i, s)

end SystemInfo

/-! Helper lemmas shared by the claim theorems. -/

lemma toSigned32_of_lt (n : Nat) (h : n < 2147483648) : toSigned32 n = (n : Int) := by
  unfold toSigned32
  rw [Nat.mod_eq_of_lt (by omega)]
  simp [h]

lemma digitChar_isDigit (d : Nat) (hd : d < 10) :
    (Char.ofNat (48 + d)).isDigit = true := by
  interval_cases d <;> decide

lemma natDecChars_ne_nil (n : Nat) : natDecChars n ≠ [] := by
  rw [natDecChars]
  split <;> simp

lemma natDecChars_isDigit (n : Nat) : ∀ c ∈ natDecChars n, c.isDigit = true := by
  induction n using Nat.strong_induction_on with
  | _ n ih =>
    rw [natDecChars]
    split
    · intro c hc
      rw [List.mem_singleton] at hc
      subst hc
      exact digitChar_isDigit n (by omega)
    · intro c hc
      rw [List.mem_append] at hc
      rcases hc with hc | hc
      · exact ih (n / 10) (Nat.div_lt_self (by omega) (by omega)) c hc
      · rw [List.mem_singleton] at hc
        subst hc
        exact digitChar_isDigit (n % 10) (Nat.mod_lt _ (by omega))

lemma dottedQuadAux_digits (l : List Char) (hl : l ≠ [])
    (hd : ∀ c ∈ l, c.isDigit = true) (rest : List Char) (dots : Nat) (b : Bool) :
    dottedQuadAux (l ++ rest) dots b = dottedQuadAux rest dots true := by
  induction l generalizing b with
  | nil => exact absurd rfl hl
  | cons c l ih =>
    rw [List.cons_append, dottedQuadAux, if_pos (hd c (List.mem_cons_self c l))]
    cases l with
    | nil => rw [List.nil_append]
    | cons c2 l2 =>
      exact ih (by simp) (fun x hx => hd x (List.mem_cons_of_mem c hx)) true

lemma dot_not_digit : ('.').isDigit = false := by decide

lemma dottedQuadAux_quad (a b c d : Nat) :
    dottedQuadAux (natDecChars a ++ '.' ::
      (natDecChars b ++ '.' :: (natDecChars c ++ '.' :: natDecChars d))) 0 false
      = true := by
  rw [dottedQuadAux_digits _ (natDecChars_ne_nil a) (natDecChars_isDigit a),
    dottedQuadAux, if_neg (by rw [dot_not_digit]; exact Bool.false_ne_true),
    if_pos rfl, Bool.true_and,
    dottedQuadAux_digits _ (natDecChars_ne_nil b) (natDecChars_isDigit b),
    dottedQuadAux, if_neg (by rw [dot_not_digit]; exact Bool.false_ne_true),
    if_pos rfl, Bool.true_and,
    dottedQuadAux_digits _ (natDecChars_ne_nil c) (natDecChars_isDigit c),
    dottedQuadAux, if_neg (by rw [dot_not_digit]; exact Bool.false_ne_true),
    if_pos rfl, Bool.true_and]
  have hendD : natDecChars d = natDecChars d ++ [] := (List.append_nil _).symm
  rw [hendD, dottedQuadAux_digits _ (natDecChars_ne_nil d) (natDecChars_isDigit d)]
  rfl

lemma matchesDottedQuad_mk (l : List Char) :
    matchesDottedQuad (String.mk l) = dottedQuadAux l 0 false := rfl

/-! Claim theorems. -/

/-- C1: the claim states that `GetMaxCpuSpeed()` only ever returns -1 or a
strictly positive value after a completed resolution attempt, and that on
failure it caches -1 permanently.  The function's own documentation
(line 306, "Returns -1 on error") says the same, but the Linux branch is
an unimplemented stub that stores and returns 0, so a completed
resolution attempt on Linux with no constructor-resolved speed yields 0
and leaves `cpu_speed_` at 0 (the branch re-runs on every call). -/
theorem c1_linux_speed_stub_returns_zero :
    (SystemInfo.GetMaxCpuSpeed .linux baseEnv
      (SystemInfo.construct .linux .SI_ARCH_X86 baseEnv)).1 = 0 ∧
    (SystemInfo.GetMaxCpuSpeed .linux baseEnv
      (SystemInfo.construct .linux .SI_ARCH_X86 baseEnv)).2.cpu_speed = 0 := by
  constructor <;> rfl

/-- C8: `GetGpuInfo` with a null out-pointer returns false immediately:
the output stays absent and the instance state is returned unchanged, on
every platform and in every environment. -/
theorem c8_getGpuInfo_null_no_side_effects (p : Platform) (env : Env)
    (s : SystemInfoState) :
    SystemInfo.GetGpuInfo p env s none = (false, none, s) := by
  rfl

/-- C10: `GetCpuFamily`, `GetCpuModel`, `GetCpuStepping` and
`GetCpuCacheSize` are pure reads: each returns the field resolved at
construction time and leaves every field of the instance unchanged, for
every state (hence for every sequence of calls on any platform). -/
theorem c10_identity_accessors_pure (s : SystemInfoState) :
    SystemInfo.GetCpuFamily s = (s.cpu_family, s) ∧
    SystemInfo.GetCpuModel s = (s.cpu_model, s) ∧
    SystemInfo.GetCpuStepping s = (s.cpu_stepping, s) ∧
    SystemInfo.GetCpuCacheSize s = (s.cache_size, s) :=
  ⟨rfl, rfl, rfl, rfl⟩

/-- C6: every stable accessor is idempotent — two consecutive calls on
the same instance return identical values, sentinel results included:
the caching guards test exactly the field just written, and a re-probed
resolution is deterministic for a fixed environment. -/
theorem c6_stable_accessors_idempotent (p : Platform) (tag : CpuTag)
    (env : Env) (s : SystemInfoState) :
    (SystemInfo.GetMaxCpus (SystemInfo.GetMaxCpus s).2).1 =
      (SystemInfo.GetMaxCpus s).1 ∧
    (SystemInfo.GetMaxPhysicalCpus (SystemInfo.GetMaxPhysicalCpus s).2).1 =
      (SystemInfo.GetMaxPhysicalCpus s).1 ∧
    (SystemInfo.GetCpuArchitecture (SystemInfo.GetCpuArchitecture s).2).1 =
      (SystemInfo.GetCpuArchitecture s).1 ∧
    (SystemInfo.GetCpuVendor tag env (SystemInfo.GetCpuVendor tag env s).2).1 =
      (SystemInfo.GetCpuVendor tag env s).1 ∧
    (SystemInfo.GetCpuCacheSize (SystemInfo.GetCpuCacheSize s).2).1 =
      (SystemInfo.GetCpuCacheSize s).1 ∧
    (SystemInfo.GetCpuFamily (SystemInfo.GetCpuFamily s).2).1 =
      (SystemInfo.GetCpuFamily s).1 ∧
    (SystemInfo.GetCpuModel (SystemInfo.GetCpuModel s).2).1 =
      (SystemInfo.GetCpuModel s).1 ∧
    (SystemInfo.GetCpuStepping (SystemInfo.GetCpuStepping s).2).1 =
      (SystemInfo.GetCpuStepping s).1 ∧
    (SystemInfo.GetMaxCpuSpeed p env (SystemInfo.GetMaxCpuSpeed p env s).2).1 =
      (SystemInfo.GetMaxCpuSpeed p env s).1 ∧
    (SystemInfo.GetMemorySize p env (SystemInfo.GetMemorySize p env s).2).1 =
      (SystemInfo.GetMemorySize p env s).1 ∧
    (SystemInfo.GetMachineModel p env (SystemInfo.GetMachineModel p env s).2).1 =
      (SystemInfo.GetMachineModel p env s).1 := by
  refine ⟨rfl, rfl, rfl, ?_, rfl, rfl, rfl, rfl, ?_, ?_, ?_⟩
  · unfold SystemInfo.GetCpuVendor
    split_ifs <;> simp_all
  · unfold SystemInfo.GetMaxCpuSpeed
    split_ifs <;> simp_all
  · unfold SystemInfo.GetMemorySize
    split_ifs <;> simp_all
  · unfold SystemInfo.GetMachineModel
    split_ifs <;> simp_all

/-- C2 counterexample: on the Windows branch, a memory query that
succeeds with `ullTotalPhys = 0` is stored and returned as 0 — it is not
normalized to -1 as the claim requires for every platform branch. -/
theorem c2_counterexample_win_zero_not_normalized :
    (SystemInfo.GetMemorySize .win32 { baseEnv with winMemoryStatus := some 0 }
      (SystemInfo.construct .win32 .SI_ARCH_X86
        { baseEnv with winMemoryStatus := some 0 })).1 = 0 := by
  rfl

/-- C2 amended: only the Apple branch treats an exact-0 source result as
failure and normalizes it to -1 (failure there also yields -1); the
Windows branch stores the raw source value — 0 included, left as the
unresolved sentinel — and yields -1 only when the query itself fails; the
Linux branch normalizes only negative page-count products, returning a
product of 0 as 0. -/
theorem c2_amended_memory_zero_handling (env : Env) (s : SystemInfoState)
    (hs : s.memory = 0) :
    ((env.hwMemSize = some 0 ∨ env.hwMemSize = none) →
      (SystemInfo.GetMemorySize .osx env s).1 = -1 ∧
      (SystemInfo.GetMemorySize .ios env s).1 = -1) ∧
    (∀ v, env.winMemoryStatus = some v →
      (SystemInfo.GetMemorySize .win32 env s).1 = toSigned64 v) ∧
    (env.winMemoryStatus = none →
      (SystemInfo.GetMemorySize .win32 env s).1 = -1) ∧
    (env.sysconfPhysPages * env.sysconfPageSize < 0 →
      (SystemInfo.GetMemorySize .linux env s).1 = -1) ∧
    (0 ≤ env.sysconfPhysPages * env.sysconfPageSize →
      (SystemInfo.GetMemorySize .linux env s).1 =
        env.sysconfPhysPages * env.sysconfPageSize) := by
  refine ⟨?_, ?_, ?_, ?_, ?_⟩
  · intro h
    rcases h with h | h <;>
      simp [SystemInfo.GetMemorySize, hs, SystemInfo.resolveMemory, h, toSigned64]
  · intro v hv
    simp [SystemInfo.GetMemorySize, hs, SystemInfo.resolveMemory, hv]
  · intro h
    simp [SystemInfo.GetMemorySize, hs, SystemInfo.resolveMemory, h]
  · intro h
    simp [SystemInfo.GetMemorySize, hs, SystemInfo.resolveMemory, not_le.mpr h]
  · intro h
    simp [SystemInfo.GetMemorySize, hs, SystemInfo.resolveMemory, not_lt.mpr h]

/-- C2 amended, witnessed at a concrete input: an Apple instance whose
`hw.memsize` query succeeds with 0 resolves the memory size to -1. -/
theorem c2_amended_witness :
    (SystemInfo.GetMemorySize .osx { baseEnv with hwMemSize := some 0 }
      (SystemInfo.construct .osx .SI_ARCH_X64
        { baseEnv with hwMemSize := some 0 })).1 = -1 :=
  (c2_amended_memory_zero_handling { baseEnv with hwMemSize := some 0 }
    (SystemInfo.construct .osx .SI_ARCH_X64
      { baseEnv with hwMemSize := some 0 }) rfl).1 (Or.inl rfl) |>.1

/-- An Apple environment whose physical-count probe fails while the
logical-count probe reports 8. -/
def envAppleNoPhys : Env :=
  { baseEnv with hwLogicalCpuMax := some 8 }

/-- C3 counterexample: on the Apple branch, when `hw.physicalcpu_max`
fails, `physical_cpus_` keeps its default 1 instead of falling back to
the logical count — here `GetMaxPhysicalCpus()` is 1 while
`GetMaxCpus()` is 8, refuting the claimed fallback-to-logical on every
platform branch. -/
theorem c3_counterexample_apple_no_fallback :
    envAppleNoPhys.hwPhysicalCpuMax = none ∧
    (SystemInfo.GetMaxPhysicalCpus
      (SystemInfo.construct .osx .SI_ARCH_X64 envAppleNoPhys)).1 = 1 ∧
    (SystemInfo.GetMaxCpus
      (SystemInfo.construct .osx .SI_ARCH_X64 envAppleNoPhys)).1 = 8 := by
  refine ⟨rfl, rfl, rfl⟩

/-- C3 amended: only the Windows branch falls back to the logical count
when the physical count is undetermined (reported ≤ 0); on the Apple
branch a failed physical-count probe keeps the default 1, which can be
smaller than the logical count, so `1 ≤ GetMaxPhysicalCpus() ≤
GetMaxCpus()` is guaranteed only when the probes that succeed report
consistent values (counts ≥ 1, physical ≤ logical when both succeed,
logical succeeding with ≥ 1 whenever physical does). -/
theorem c3_amended_physical_logical (env : Env) (arch : Architecture) :
    ((GetProcessorInformation env.winGlpi 1 0).1 ≤ 0 →
      (SystemInfo.GetMaxPhysicalCpus (SystemInfo.construct .win32 arch env)).1 =
        (SystemInfo.GetMaxCpus (SystemInfo.construct .win32 arch env)).1) ∧
    (env.hwPhysicalCpuMax = none →
      (SystemInfo.GetMaxPhysicalCpus (SystemInfo.construct .osx arch env)).1 = 1) ∧
    (∀ pv lv : Nat, env.hwPhysicalCpuMax = some pv → env.hwLogicalCpuMax = some lv →
      1 ≤ pv → pv ≤ lv → lv < 2147483648 →
      1 ≤ (SystemInfo.GetMaxPhysicalCpus (SystemInfo.construct .osx arch env)).1 ∧
      (SystemInfo.GetMaxPhysicalCpus (SystemInfo.construct .osx arch env)).1 ≤
        (SystemInfo.GetMaxCpus (SystemInfo.construct .osx arch env)).1) ∧
    (∀ lv : Nat, env.hwPhysicalCpuMax = none → env.hwLogicalCpuMax = some lv →
      1 ≤ lv → lv < 2147483648 →
      1 ≤ (SystemInfo.GetMaxPhysicalCpus (SystemInfo.construct .osx arch env)).1 ∧
      (SystemInfo.GetMaxPhysicalCpus (SystemInfo.construct .osx arch env)).1 ≤
        (SystemInfo.GetMaxCpus (SystemInfo.construct .osx arch env)).1) := by
  refine ⟨?_, ?_, ?_, ?_⟩
  · intro h
    simp only [SystemInfo.construct, SystemInfo.GetMaxPhysicalCpus,
      SystemInfo.GetMaxCpus, platformInit, initialState]
    rw [if_pos h]
  · intro h
    simp [SystemInfo.construct, SystemInfo.GetMaxPhysicalCpus, platformInit,
      initialState, appleU32Field, h]
  · intro pv lv hp hl h1 hpl hlt
    have hp32 : pv < 2147483648 := lt_of_le_of_lt hpl hlt
    simp only [SystemInfo.construct, SystemInfo.GetMaxPhysicalCpus,
      SystemInfo.GetMaxCpus, platformInit, initialState, appleU32Field, hp, hl,
      toSigned32_of_lt pv hp32, toSigned32_of_lt lv hlt]
    exact ⟨by exact_mod_cast h1, by exact_mod_cast hpl⟩
  · intro lv hp hl h1 hlt
    simp only [SystemInfo.construct, SystemInfo.GetMaxPhysicalCpus,
      SystemInfo.GetMaxCpus, platformInit, initialState, appleU32Field, hp, hl,
      toSigned32_of_lt lv hlt]
    exact ⟨le_refl 1, by exact_mod_cast h1⟩

/-- C3 amended, witnessed at a concrete input: the Apple instance whose
physical-count probe failed reports the default physical count 1. -/
theorem c3_amended_witness :
    (SystemInfo.GetMaxPhysicalCpus
      (SystemInfo.construct .osx .SI_ARCH_X64 envAppleNoPhys)).1 = 1 :=
  (c3_amended_physical_logical envAppleNoPhys .SI_ARCH_X64).2.1 rfl

/-- C5: `GetCpuVendor()` probes only while the cached vendor string is
empty and stores what it returns, so a non-empty cache is returned
unchanged with no re-query; on an x86-family build the first call
assembles the 12 vendor bytes from cpuid leaf 0 in register order
[ebx, edx, ecx] (= [reg2, reg4, reg3] of the returned quadruple) and,
when none of those bytes is NUL, returns exactly those 12 characters;
ARM builds return "ARM" and builds with neither family return
"Undefined". -/
theorem c5_cpu_vendor_resolution (tag : CpuTag) (env : Env)
    (s : SystemInfoState) :
    (s.cpu_vendor ≠ "" → SystemInfo.GetCpuVendor tag env s = (s.cpu_vendor, s)) ∧
    (vendorBytes env).length = 12 ∧
    (s.cpu_vendor = "" →
      (SystemInfo.GetCpuVendor tag env s).2.cpu_vendor =
        (SystemInfo.GetCpuVendor tag env s).1 ∧
      (tag = .x86 → (∀ b ∈ vendorBytes env, b ≠ 0) →
        (SystemInfo.GetCpuVendor tag env s).1 =
          String.mk ((vendorBytes env).map Char.ofNat)) ∧
      (tag = .arm → (SystemInfo.GetCpuVendor tag env s).1 = "ARM") ∧
      (tag = .other → (SystemInfo.GetCpuVendor tag env s).1 = "Undefined")) := by
  refine ⟨?_, ?_, ?_⟩
  · intro h
    simp [SystemInfo.GetCpuVendor, h]
  · simp [vendorBytes, bytes4]
  · intro hs
    refine ⟨?_, ?_, ?_, ?_⟩
    · simp [SystemInfo.GetCpuVendor, hs]
    · intro htag hnz
      subst htag
      have htake : (vendorBytes env).takeWhile (fun b => !decide (b = 0)) =
          vendorBytes env := by
        rw [List.takeWhile_eq_self_iff]
        intro b hb
        simpa using hnz b hb
      simp [SystemInfo.GetCpuVendor, hs, resolveVendor, cpuVendorString, htake]
    · intro htag
      subst htag
      simp [SystemInfo.GetCpuVendor, hs, resolveVendor]
    · intro htag
      subst htag
      simp [SystemInfo.GetCpuVendor, hs, resolveVendor]

/-- A cpuid environment whose leaf 0 reports the GenuineIntel vendor
bytes in [ebx, ecx, edx]. -/
def envIntel : Env :=
  { baseEnv with cpuid := fun leaf =>
      if leaf = 0 then ⟨0, 0x756e6547, 0x6c65746e, 0x49656e69⟩
      else ⟨0, 0, 0, 0⟩ }

/-- C5, witnessed at a concrete input: an x86 instance with empty vendor
cache and GenuineIntel cpuid bytes returns the 12 assembled characters. -/
theorem c5_cpu_vendor_witness :
    (SystemInfo.GetCpuVendor .x86 envIntel (initialState .SI_ARCH_X86)).1 =
      String.mk ((vendorBytes envIntel).map Char.ofNat) :=
  ((c5_cpu_vendor_resolution .x86 envIntel (initialState .SI_ARCH_X86)).2.2
    rfl).2.1 rfl (by decide)

/-- C7: on every successful Windows `GetGpuInfo` call, `driver_version`
is the four 16-bit words HIWORD(HighPart), LOWORD(HighPart),
HIWORD(LowPart), LOWORD(LowPart) of the two 32-bit driver-version words,
rendered in decimal in that order and joined by dots, and the resulting
string matches `\d+\.\d+\.\d+\.\d+`. -/
theorem c7_driver_version_dotted_quad (env : Env) (s : SystemInfoState)
    (i : GpuInfo) (a : WinGpuAdapter) (ha : env.winGpu = some a) :
    (SystemInfo.GetGpuInfo .win32 env s (some i)).1 = true ∧
    ∀ out, (SystemInfo.GetGpuInfo .win32 env s (some i)).2.1 = some out →
      out.driver_version = String.mk
        (natDecChars (a.driverVersionHigh % 4294967296 / 65536) ++ '.' ::
          (natDecChars (a.driverVersionHigh % 65536) ++ '.' ::
            (natDecChars (a.driverVersionLow % 4294967296 / 65536) ++ '.' ::
              natDecChars (a.driverVersionLow % 65536)))) ∧
      matchesDottedQuad out.driver_version = true := by
  constructor
  · simp [SystemInfo.GetGpuInfo, ha]
  · intro out hout
    simp only [SystemInfo.GetGpuInfo, ha, Option.some.injEq] at hout
    subst hout
    refine ⟨rfl, ?_⟩
    rw [matchesDottedQuad_mk]
    exact dottedQuadAux_quad _ _ _ _

/-- A Windows environment whose D3D9 adapter identification succeeds
with driver-version words `0x000A0001` and `0x00120345`. -/
def envGpuW : Env :=
  { baseEnv with
    winGpu := some ⟨"dev", "desc", 4318, 4660, "drv", 0x000A0001, 0x00120345⟩ }

/-- A default-initialised `GpuInfo` output record. -/
def gpuOut0 : GpuInfo :=
  ⟨"", "", 0, 0, "", ""⟩

/-- C7, witnessed at a concrete input: the call succeeds and its
driver-version string matches the dotted-quad pattern. -/
theorem c7_driver_version_witness :
    (SystemInfo.GetGpuInfo .win32 envGpuW (initialState .SI_ARCH_X86)
      (some gpuOut0)).1 = true ∧
    matchesDottedQuad "10.1.18.837" = true :=
  ⟨(c7_driver_version_dotted_quad envGpuW (initialState .SI_ARCH_X86) gpuOut0
      ⟨"dev", "desc", 4318, 4660, "drv", 0x000A0001, 0x00120345⟩ rfl).1,
   by decide⟩

/-- C9: with an empty cache, the Apple branch of `GetMachineModel()`
returns the probed string on success and the empty string on failure —
never the "Not available" sentinel — and a failure leaves the cache
field empty so that the next call probes the (possibly different)
environment afresh; the sentinel is produced exactly by the branch for
platforms with no machine-model source. -/
theorem c9_machine_model_failure_reprobes (env : Env) (s : SystemInfoState)
    (hs : s.machine_model = "") :
    (∀ p, p = Platform.osx ∨ p = Platform.ios → env.hwModel = none →
      (SystemInfo.GetMachineModel p env s).1 = "" ∧
      (SystemInfo.GetMachineModel p env s).2.machine_model = "" ∧
      ∀ env2, (SystemInfo.GetMachineModel p env2
        (SystemInfo.GetMachineModel p env s).2).1 =
          SystemInfo.resolveMachineModel p env2) ∧
    (∀ p m, p = Platform.osx ∨ p = Platform.ios → env.hwModel = some m →
      (SystemInfo.GetMachineModel p env s).1 = m) ∧
    (SystemInfo.GetMachineModel .win32 env s).1 = "Not available" ∧
    (SystemInfo.GetMachineModel .linux env s).1 = "Not available" := by
  refine ⟨?_, ?_, ?_, ?_⟩
  · intro p hp h
    rcases hp with hp | hp <;> subst hp <;>
      refine ⟨?_, ?_, ?_⟩ <;>
        simp [SystemInfo.GetMachineModel, SystemInfo.resolveMachineModel, hs, h]
  · intro p m hp h
    rcases hp with hp | hp <;> subst hp <;>
      simp [SystemInfo.GetMachineModel, SystemInfo.resolveMachineModel, hs, h]
  · simp [SystemInfo.GetMachineModel, SystemInfo.resolveMachineModel, hs]
  · simp [SystemInfo.GetMachineModel, SystemInfo.resolveMachineModel, hs]

/-- C9, witnessed at a concrete input: a fresh Apple instance whose
`hw.model` probe fails returns the empty string, not "Not available". -/
theorem c9_machine_model_witness :
    (SystemInfo.GetMachineModel .osx baseEnv
      (SystemInfo.construct .osx .SI_ARCH_X64 baseEnv)).1 = "" :=
  ((c9_machine_model_failure_reprobes baseEnv
    (SystemInfo.construct .osx .SI_ARCH_X64 baseEnv) rfl).1
    .osx (Or.inl rfl) rfl).1

/-- An Apple environment whose L3-cache source reports 0 and whose
L2-cache source reports 4194304 bytes. -/
def envL3ZeroL2Four : Env :=
  { baseEnv with
    hwL3CacheSize := some 0, hwL2CacheSize := some 4194304 }

/-- An environment in which every pre-cpuid cache source fails and the
cpuid instruction reports extended-leaf support up to `0x80000006` with
`0x80000000` in the third register of that leaf (bit 31 set). -/
def envCacheBit31 : Env :=
  { baseEnv with cpuid := fun leaf =>
      if leaf = 0x80000000 then ⟨0x80000006, 0, 0, 0⟩
      else if leaf = 0x80000006 then ⟨0, 0, 0x80000000, 0⟩
      else ⟨0, 0, 0, 0⟩ }

/-- C4 counterexample: with `0x80000000` in the third register of leaf
`0x80000006`, the code computes `(cpu_info[2] >> 16) * 1024` on a
negative signed `int` — an arithmetic shift — and stores -33554432,
not the 33554432 that "bits 16–31 times 1024" (0x8000 × 1024) demands. -/
theorem c4_counterexample_signed_shift :
    (SystemInfo.GetCpuCacheSize
      (SystemInfo.construct .linux .SI_ARCH_X86 envCacheBit31)).1 = -33554432 ∧
    (SystemInfo.GetCpuCacheSize
      (SystemInfo.construct .linux .SI_ARCH_X86 envCacheBit31)).1 ≠
      (((0x80000000 : Nat) / 65536 % 65536 : Nat) : Int) * 1024 := by
  refine ⟨rfl, by decide⟩

/-- C4 amended: the extended cpuid leaf is consulted only when every
earlier source left the cached cache size at 0 (an earlier 0 followed by
a later 4194304 resolves to 4194304), and the stored value is the signed
32-bit third register arithmetically shifted right by 16, times 1024 —
equal to bits 16–31 × 1024 exactly when bit 31 of the register is clear;
with bit 31 set the stored value is negative. -/
theorem c4_amended_cache_resolution (env : Env) (pre : Int) :
    (∀ tag, pre ≠ 0 → resolveCacheSize tag env pre = pre) ∧
    (∀ p arch, (SystemInfo.construct p arch env).cache_size =
      resolveCacheSize (tagOf arch) env
        (platformInit p (tagOf arch) env (initialState arch)).cache_size) ∧
    (SystemInfo.construct .osx .SI_ARCH_X64 envL3ZeroL2Four).cache_size
      = 4194304 ∧
    ((env.cpuid 0x80000000).r0 % 4294967296 ≥ 0x80000006 →
      resolveCacheSize .x86 env 0 =
        asr16 (toSigned32 (env.cpuid 0x80000006).r2) * 1024 ∧
      ((env.cpuid 0x80000006).r2 % 4294967296 < 2147483648 →
        resolveCacheSize .x86 env 0 =
          (((env.cpuid 0x80000006).r2 % 4294967296 / 65536 % 65536 : Nat) : Int)
            * 1024)) := by
  refine ⟨?_, ?_, ?_, ?_⟩
  · intro tag hpre
    simp [resolveCacheSize, hpre]
  · intro p arch
    rfl
  · rfl
  · intro hleaf
    have hval : resolveCacheSize .x86 env 0 =
        asr16 (toSigned32 (env.cpuid 0x80000006).r2) * 1024 := by
      simp [resolveCacheSize, cpuidCacheValue, hleaf]
    refine ⟨hval, ?_⟩
    intro hbit
    rw [hval]
    have hmod : toSigned32 (env.cpuid 0x80000006).r2 =
        (((env.cpuid 0x80000006).r2 % 4294967296 : Nat) : Int) := by
      unfold toSigned32
      rw [if_pos hbit]
    rw [hmod]
    unfold asr16
    have hdivlt : (env.cpuid 0x80000006).r2 % 4294967296 / 65536 < 65536 := by
      omega
    rw [Int.fdiv_eq_tdiv (by positivity) (by norm_num), Nat.mod_eq_of_lt hdivlt,
      Int.ofNat_tdiv]
    norm_num

/-- An environment like `envCacheBit31` but with bit 31 of the reported
register clear (`0x00200000`, i.e. 32 KB in bits 16–31). -/
def envCacheBit31Clear : Env :=
  { baseEnv with cpuid := fun leaf =>
      if leaf = 0x80000000 then ⟨0x80000006, 0, 0, 0⟩
      else if leaf = 0x80000006 then ⟨0, 0, 0x00200000, 0⟩
      else ⟨0, 0, 0, 0⟩ }

/-- C4 amended, witnessed at a concrete input: a register value with bit
31 clear (`0x00200000`) resolves the cache size to bits 16–31 × 1024 =
32 × 1024 bytes. -/
theorem c4_amended_witness :
    resolveCacheSize .x86 envCacheBit31Clear 0 = 32768 := by
  have h := ((c4_amended_cache_resolution envCacheBit31Clear 0).2.2.2
    (by decide)).2 (by decide)
  rw [h]
  decide
